import Mathlib

/-!
Verification of the NO2 feature-extraction and meteorological-interpolation
pipeline of the nasa-hackathon-tempo repository.

The Python sources are shallowly embedded:
- Finite machine floats are modelled as rationals (exact arithmetic); a
  dedicated model with the IEEE special values (NaN, infinities) is used where
  a claim is about those values (the NO2 validity filter).
- The transcendental geometry (haversine, spherical projection, sqrt, trig) is
  modelled over the real numbers.
- The meteorological index operations take the pairwise station distance
  function as an explicit parameter: the source instantiates it with
  haversine_distance (a transcendental function, defined separately below over
  the reals); every theorem about the index holds for an arbitrary distance
  function, hence in particular for the haversine instantiation.
- Timestamps in the meteorological index are the strings the source compares
  for exact equality; timestamps in the historical aggregator are modelled as
  integer minutes (pandas Timestamps support exact arithmetic at that
  granularity; 24h = 1440 minutes).
-/

/-! ## Meteorological spatial index (src/scripts/meteo_spatial_index.py)

One station record of the index: the fields stored by
MeteoSpatialIndex.__init__ in self.cities_data (a location and parallel
per-variable hourly arrays; any entry may be null). -/

structure MeteoCity where
  name : String
  lat : ℚ
  lon : ℚ
  times : List String
  wind_speed : List (Option ℚ)
  wind_direction : List (Option ℚ)
  temperature : List (Option ℚ)
  precipitation : List (Option ℚ)
  pbl_height : List (Option ℚ)
  surface_pressure : List (Option ℚ)
  relative_humidity : List (Option ℚ)
  cloud_cover : List (Option ℚ)
  deriving DecidableEq

/-- Names of the eight interpolated meteorological variables (the keys of the
meteo_values dictionary in interpolate_meteo). -/
inductive MeteoVar where
  | ws | wd | temp | precip | pbl | sp | rh | cc
  deriving DecidableEq, Fintype

/-- Value arrays of one variable for one station (city_data.get(var, [])). -/
def MeteoVar.series : MeteoVar → MeteoCity → List (Option ℚ)
  | .ws, c => c.wind_speed
  | .wd, c => c.wind_direction
  | .temp, c => c.temperature
  | .precip, c => c.precipitation
  | .pbl, c => c.pbl_height
  | .sp, c => c.surface_pressure
  | .rh, c => c.relative_humidity
  | .cc, c => c.cloud_cover

/-- Documented default record of interpolate_meteo (returned wholesale when no
station matches, and per variable when every matching station is null). -/
def MeteoVar.deflt : MeteoVar → ℚ
  | .ws => 5
  | .wd => 270
  | .temp => 20
  | .precip => 0
  | .pbl => 800
  | .sp => 1013
  | .rh => 60
  | .cc => 50

/-- Inverse-distance-squared weight of interpolate_meteo:
weight = 1.0 / (distance + 0.1)**2. -/
def idwWeight (distance : ℚ) : ℚ := 1 / (distance + 1/10) ^ 2

/-- MeteoSpatialIndex.get_nearest_cities: every station paired with its
distance to the query point, sorted ascending by distance (Python list.sort is
a stable ascending sort, embedded as a stable insertion sort), truncated to k.
The distance function, haversine_distance in the source, is the parameter
dst. -/
def get_nearest_cities (idx : List MeteoCity) (lat lon : ℚ) (k : ℕ)
    (dst : ℚ → ℚ → ℚ → ℚ → ℚ) : List (MeteoCity × ℚ) :=
  ((idx.map (fun c => (c, dst lat lon c.lat c.lon))).insertionSort
    (fun a b => a.2 ≤ b.2)).take k

/-- First loop of interpolate_meteo: for each selected station, look up the
exact timestamp with times.index(timestamp); stations lacking the timestamp
are skipped (the except ValueError: continue branch).  Each kept entry is
(station, distance, index of the timestamp in its time array). -/
def matchedCities (nearest : List (MeteoCity × ℚ)) (ts : String) :
    List (MeteoCity × ℚ × ℕ) :=
  nearest.filterMap (fun p => (p.1.times.findIdx? (fun s => decide (s = ts))).map
    (fun i => (p.1, p.2, i)))

/-- Value of variable v for a matched station: values_array[idx] when the
index is in range and the entry is non-null, otherwise none (the source
appends None in both the out-of-range and the null case). -/
def varValue (v : MeteoVar) (m : MeteoCity × ℚ × ℕ) : Option ℚ :=
  ((MeteoVar.series v m.1).get? m.2.2).join

/-- Weighted contribution appended to meteo_values[var]: val * weight for a
non-null value, none otherwise. -/
def varContrib (v : MeteoVar) (m : MeteoCity × ℚ × ℕ) : Option ℚ :=
  (varValue v m).map (fun x => x * idwWeight m.2.1)

/-- Second half of interpolate_meteo, from the matched stations: if no station
matched (weights empty) return the default record; otherwise, per variable,
sum the non-null weighted contributions and divide by the total weight of all
matched stations; a variable with no non-null value gets its default. -/
def interpolateFrom (matched : List (MeteoCity × ℚ × ℕ)) : MeteoVar → ℚ :=
  if matched = [] then MeteoVar.deflt
  else
    let total_weight := (matched.map (fun m => idwWeight m.2.1)).sum
    fun v =>
      let valid := matched.filterMap (varContrib v)
      if valid = [] then MeteoVar.deflt v else valid.sum / total_weight

/-- MeteoSpatialIndex.interpolate_meteo: select the k nearest stations, keep
those with an exact timestamp match, and build the inverse-distance-weighted
record (defaults when nothing is available).  Total: it never fails on
missing data. -/
def interpolate_meteo (idx : List MeteoCity) (lat lon : ℚ) (ts : String)
    (k : ℕ) (dst : ℚ → ℚ → ℚ → ℚ → ℚ) : MeteoVar → ℚ :=
  let nearest := get_nearest_cities idx lat lon k dst
  if nearest = [] then MeteoVar.deflt
  else interpolateFrom (matchedCities nearest ts)

/-! ## Historical aggregator (src/scripts/train-ml-model.py,
calculate_epa_historical_features)

A station series is a list of (timestamp, value) rows sorted ascending by
time; timestamps are integer minutes. -/

/-- One step of the rolling 24h mean: pandas rolling('24H', min_periods=1)
computes, for each row in order, the mean over the rows whose timestamp lies
in the half-open window (t - 24h, t] (the documented default closed='right'
for offset windows).  prev holds the rows already passed. -/
def no2_avg_24h_go (prev : List (ℤ × ℚ)) : List (ℤ × ℚ) → List (ℤ × ℚ)
  | [] => []
  | r :: rest =>
      let w := (prev ++ [r]).filter (fun x => decide (r.1 - 1440 < x.1) &&
        decide (x.1 ≤ r.1))
      (r.1, (w.map (fun x => x.2)).sum / (w.length : ℚ)) ::
        no2_avg_24h_go (prev ++ [r]) rest

/-- The per-station no2_avg_24h series:
station_data['value'].rolling('24H', min_periods=1).mean(). -/
def no2_avg_24h_series (rows : List (ℤ × ℚ)) : List (ℤ × ℚ) :=
  no2_avg_24h_go [] rows

/-- Modelled from the spec: the same rolling mean but over the closed window
[t - 24h, t], both endpoints inclusive, as the claim states it.  Used only to
compare against the code's half-open window. -/
def no2_avg_24h_closed (rows : List (ℤ × ℚ)) : List (ℤ × ℚ) :=
  rows.map (fun r =>
    let w := rows.filter (fun x => decide (r.1 - 1440 ≤ x.1) &&
      decide (x.1 ≤ r.1))
    (r.1, (w.map (fun x => x.2)).sum / (w.length : ℚ)))

/-- Backward time-indexed lookup: first row at exactly time t, if any. -/
def lookupTime (rows : List (ℤ × ℚ)) (t : ℤ) : Option ℚ :=
  (rows.find? (fun r => decide (r.1 = t))).map (fun r => r.2)

/-- station_data['value'].shift(freq=pd.Timedelta(hours=24)): the series
re-indexed 24h later. -/
def shift24h (rows : List (ℤ × ℚ)) : List (ℤ × ℚ) :=
  rows.map (fun r => (r.1 + 1440, r.2))

/-- The per-station no2_trend_24h series:
((value - value_24h_ago) / (value_24h_ago.abs() + 0.1)).fillna(0), where
value_24h_ago is the shifted series aligned on the row's timestamp; a missing
alignment is NaN, and fillna turns it into 0. -/
def no2_trend_24h_series (rows : List (ℤ × ℚ)) : List (ℤ × ℚ) :=
  rows.map (fun r => (r.1,
    match lookupTime (shift24h rows) r.1 with
    | some vp => (r.2 - vp) / (|vp| + 1/10)
    | none => 0))

/-! ## Python float semantics for the NO2 validity filter
(src/scripts/train-ml-model.py, extract_no2_values)

The filter `if c.get('no2_column') and c['no2_column'] > 0` runs on Python
floats, whose special values matter to the claim; they are modelled
explicitly. -/

/-- A Python float for the purposes of truthiness and comparison with zero:
a finite value (exact, as a rational), NaN, or a signed infinity. -/
inductive PyFloat where
  | finite (q : ℚ) | nan | inf | ninf
  deriving DecidableEq

/-- Python truthiness of a float: only (positive or negative) zero is falsy;
NaN and the infinities are truthy. -/
def PyFloat.truthy : PyFloat → Bool
  | .finite q => decide (q ≠ 0)
  | _ => true

/-- IEEE comparison `x > 0`: false for NaN and -inf, true for +inf. -/
def PyFloat.gtZero : PyFloat → Bool
  | .finite q => decide (0 < q)
  | .nan => false
  | .inf => true
  | .ninf => false

/-- A grid cell as seen by the validity filter: the no2_column key may be
missing (dict.get default None). -/
structure PCell where
  latitude : ℚ
  longitude : ℚ
  no2_column : Option PyFloat
  deriving DecidableEq

/-- extract_no2_values:
[c['no2_column'] for c in cells if c.get('no2_column') and c['no2_column'] > 0]
(a missing key gives None, which is falsy and short-circuits). -/
def extract_no2_values (cells : List PCell) : List PyFloat :=
  cells.filterMap (fun c =>
    match c.no2_column with
    | some v => if v.truthy && v.gtZero then some v else none
    | none => none)

/-! ## Geodesy and grid-cell queries (src/scripts/train-ml-model.py)

The transcendental arithmetic is over the real numbers. -/

/-- np.radians. -/
noncomputable def radians (x : ℝ) : ℝ := x * Real.pi / 180

/-- np.degrees. -/
noncomputable def degrees (x : ℝ) : ℝ := x * 180 / Real.pi

/-- np.arctan2 y x (the four-quadrant arctangent). -/
noncomputable def arctan2 (y x : ℝ) : ℝ :=
  if 0 < x then Real.arctan (y / x)
  else if x < 0 then
    (if 0 ≤ y then Real.arctan (y / x) + Real.pi else Real.arctan (y / x) - Real.pi)
  else (if 0 < y then Real.pi / 2 else if y < 0 then -(Real.pi / 2) else 0)

/-- haversine_distance (identical in train-ml-model.py and
meteo_spatial_index.py): great-circle distance in km, Earth radius 6371. -/
noncomputable def haversine_distance (lat1 lon1 lat2 lon2 : ℝ) : ℝ :=
  let lat1_rad := radians lat1
  let lat2_rad := radians lat2
  let dlat := radians (lat2 - lat1)
  let dlon := radians (lon2 - lon1)
  let a := Real.sin (dlat / 2) ^ 2 +
    Real.cos lat1_rad * Real.cos lat2_rad * Real.sin (dlon / 2) ^ 2
  let c := 2 * arctan2 (Real.sqrt a) (Real.sqrt (1 - a))
  6371 * c

/-- Python float modulus x % y (floored, like math result sign follows y). -/
noncomputable def pyFMod (x y : ℝ) : ℝ := x - y * Int.floor (x / y)

/-- move_location: spherical forward projection of a point along a bearing. -/
noncomputable def move_location (lat lon bearing distance_km : ℝ) : ℝ × ℝ :=
  let R : ℝ := 6371
  let bearing_rad := radians bearing
  let lat_rad := radians lat
  let lon_rad := radians lon
  let lat2 := Real.arcsin (Real.sin lat_rad * Real.cos (distance_km / R) +
    Real.cos lat_rad * Real.sin (distance_km / R) * Real.cos bearing_rad)
  let lon2 := lon_rad + arctan2
    (Real.sin bearing_rad * Real.sin (distance_km / R) * Real.cos lat_rad)
    (Real.cos (distance_km / R) - Real.sin lat_rad * Real.sin lat2)
  (degrees lat2, degrees lon2)

/-- A satellite grid cell as consumed by extract_features: coordinates and the
no2_column value (the key may be absent; finite values modelled as reals). -/
structure GridCell where
  latitude : ℝ
  longitude : ℝ
  no2_column : Option ℝ

/-- get_cells_in_radius: the loop keeping cells whose haversine distance to
the center is at most radius_km, in input order. -/
noncomputable def get_cells_in_radius (cells : List GridCell)
    (center_lat center_lon radius_km : ℝ) : List GridCell :=
  match cells with
  | [] => []
  | c :: rest =>
      if haversine_distance center_lat center_lon c.latitude c.longitude ≤ radius_km
      then c :: get_cells_in_radius rest center_lat center_lon radius_km
      else get_cells_in_radius rest center_lat center_lon radius_km

/-- Loop state of find_nearest_cell: the source starts from
(nearest, min_dist) = (None, inf) and every real distance satisfies
dist < inf, so the none state always takes the first cell; afterwards it
updates only on a strictly smaller distance (first-encountered wins ties). -/
noncomputable def find_nearest_go (d : GridCell → ℝ) :
    List GridCell → Option (GridCell × ℝ) → Option (GridCell × ℝ)
  | [], acc => acc
  | c :: rest, none => find_nearest_go d rest (some (c, d c))
  | c :: rest, some (b, db) =>
      if d c < db then find_nearest_go d rest (some (c, d c))
      else find_nearest_go d rest (some (b, db))

/-- The nearest-cell scan for an arbitrary distance function. -/
noncomputable def find_nearest_by (d : GridCell → ℝ) (cells : List GridCell) :
    Option GridCell :=
  (find_nearest_go d cells none).map (fun p => p.1)

/-- find_nearest_cell: nearest cell by haversine distance to (lat, lon). -/
noncomputable def find_nearest_cell (cells : List GridCell) (lat lon : ℝ) :
    Option GridCell :=
  find_nearest_by
    (fun c => haversine_distance lat lon c.latitude c.longitude) cells

/-- Modelled from the spec: the flat-earth approximate distance
sqrt(dlat^2 + dlon^2) * 111 km that the claim says the neighbor searches use
(the formula appears in the repository only in the grid-extraction scripts,
for example src/scripts/extract-tempo-grid-h5py.py line 123).  Used only to
compare against the code's haversine-based searches. -/
noncomputable def flat_earth_distance (lat lon cell_lat cell_lon : ℝ) : ℝ :=
  Real.sqrt ((cell_lat - lat) ^ 2 + (cell_lon - lon) ^ 2) * 111

/-- Modelled from the spec: nearest cell under the flat-earth distance. -/
noncomputable def find_nearest_cell_flat (cells : List GridCell) (lat lon : ℝ) :
    Option GridCell :=
  find_nearest_by
    (fun c => flat_earth_distance lat lon c.latitude c.longitude) cells

/-- get_upwind_cells: cells within search_radius_km of the point projected
distance_km toward the wind direction. -/
noncomputable def get_upwind_cells (cells : List GridCell)
    (center_lat center_lon wind_direction distance_km search_radius_km : ℝ) :
    List GridCell :=
  let p := move_location center_lat center_lon wind_direction distance_km
  get_cells_in_radius cells p.1 p.2 search_radius_km

/-- get_downwind_cells: same with bearing (wind_direction + 180) % 360. -/
noncomputable def get_downwind_cells (cells : List GridCell)
    (center_lat center_lon wind_direction distance_km search_radius_km : ℝ) :
    List GridCell :=
  let downwind_direction := pyFMod (wind_direction + 180) 360
  let p := move_location center_lat center_lon downwind_direction distance_km
  get_cells_in_radius cells p.1 p.2 search_radius_km

/-- get_cells_in_direction: cells around the point projected along a fixed
cardinal bearing. -/
noncomputable def get_cells_in_direction (cells : List GridCell)
    (center_lat center_lon bearing distance_km search_radius_km : ℝ) :
    List GridCell :=
  let p := move_location center_lat center_lon bearing distance_km
  get_cells_in_radius cells p.1 p.2 search_radius_km

/-- extract_no2_values over the real-valued idealization used inside
extract_features: for finite floats the Python filter
`c.get('no2_column') and c['no2_column'] > 0` keeps exactly the strictly
positive values (truthiness only excludes 0, which `> 0` excludes anyway).
The PyFloat model above refines this filter on the IEEE special values. -/
noncomputable def extract_no2_valuesR (cells : List GridCell) : List ℝ :=
  cells.filterMap (fun c =>
    match c.no2_column with
    | some v => if 0 < v then some v else none
    | none => none)

/-- safe_avg: np.mean(values) if len(values) > 0 else 0. -/
noncomputable def safe_avg (values : List ℝ) : ℝ :=
  if 0 < values.length then values.sum / values.length else 0

/-- safe_max: np.max(values) if len(values) > 0 else 0. -/
noncomputable def safe_max (values : List ℝ) : ℝ :=
  if 0 < values.length then (values.max?).getD 0 else 0

/-- safe_min: np.min(values) if len(values) > 0 else 0. -/
noncomputable def safe_min (values : List ℝ) : ℝ :=
  if 0 < values.length then (values.min?).getD 0 else 0

/-- safe_std: np.std (population standard deviation) if nonempty else 0. -/
noncomputable def safe_std (values : List ℝ) : ℝ :=
  if 0 < values.length then
    let m := values.sum / values.length
    Real.sqrt ((values.map (fun x => (x - m) ^ 2)).sum / values.length)
  else 0

/-- One reference city of get_geographic_features. -/
structure RefCity where
  cname : String
  clat : ℝ
  clon : ℝ
  population : ℝ

/-- The MAJOR_CITIES table (name, latitude, longitude, 2020 population). -/
noncomputable def MAJOR_CITIES : List RefCity :=
  [⟨"Los_Angeles", 34.06, -118.24, 3900000⟩,
   ⟨"San_Diego", 32.72, -117.14, 1400000⟩,
   ⟨"San_Jose", 37.36, -121.91, 1000000⟩,
   ⟨"San_Francisco", 37.79, -122.41, 875000⟩,
   ⟨"Fresno", 36.73, -119.76, 542000⟩,
   ⟨"Sacramento", 38.56, -121.55, 525000⟩,
   ⟨"Long_Beach", 33.78, -118.21, 466000⟩,
   ⟨"Oakland", 37.79, -122.41, 440000⟩,
   ⟨"Bakersfield", 35.40, -119.04, 403000⟩,
   ⟨"Anaheim", 33.85, -117.91, 346000⟩]

/-- get_geographic_features: (urban_proximity_index,
distance_to_nearest_city_km).  The index is the sum over the reference cities
of population / max(distance, 1), divided by 1e6; the second component is the
minimum haversine distance to a reference city.  (The source also accumulates
weighted_urban_distance but never uses it; it is omitted.) -/
noncomputable def get_geographic_features (lat lon : ℝ) : ℝ × ℝ :=
  let total_weight := (MAJOR_CITIES.map (fun c =>
    c.population / max (haversine_distance lat lon c.clat c.clon) 1)).sum
  let urban_proximity_index := total_weight / 1000000
  let min_dist_to_city :=
    ((MAJOR_CITIES.map (fun c => haversine_distance lat lon c.clat c.clon)).min?).getD 0
  (urban_proximity_index, min_dist_to_city)

/-! ## Physical baseline model (convert_no2_to_surface) -/

def PBL_REF : ℝ := 800

def NO2_FACTOR : ℝ := 1.8749

def BASE_FACTOR : ℝ := 2e-16

/-- convert_no2_to_surface: 0 for a non-positive column (the source guard
`not no2_column or no2_column <= 0`; over the reals falsy means 0, subsumed by
the comparison), otherwise column * BASE_FACTOR * NO2_FACTOR scaled by
sqrt(PBL_REF / max(pbl_height, 300)). -/
noncomputable def convert_no2_to_surface (no2_column pbl_height : ℝ) : ℝ :=
  if no2_column ≤ 0 then 0
  else no2_column * BASE_FACTOR * NO2_FACTOR *
    Real.sqrt (PBL_REF / max pbl_height 300)

/-- Diurnal factor of extract_features, as a function of the local hour
(hour - 8) % 24: 1.15 on [6,10), 0.85 on [10,16), 1.1 on [16,20), else 1. -/
def diurnalFactor (local_hour : ℤ) : ℝ :=
  if 6 ≤ local_hour ∧ local_hour < 10 then 1.15
  else if 10 ≤ local_hour ∧ local_hour < 16 then 0.85
  else if 16 ≤ local_hour ∧ local_hour < 20 then 1.1
  else 1

/-- The physics_prediction computation of extract_features: the physical
baseline of the center cell's column (dict.get default 0 for an absent key)
times the diurnal factor of the local hour.  Python's % on integers with a
positive modulus agrees with Int.emod. -/
noncomputable def physicsPred (no2_column : Option ℝ) (pbl_height : ℝ)
    (hour : ℤ) : ℝ :=
  convert_no2_to_surface (no2_column.getD 0) pbl_height *
    diurnalFactor ((hour - 8) % 24)

/-! ## Feature extractor (extract_features) -/

/-- One precomputed historical record (the aggregator always stores the three
fields together). -/
structure HistFeat where
  h_avg_24h : ℝ
  h_avg_7d : ℝ
  h_trend_24h : ℝ

/-- The timestamp argument of extract_features, reduced to what the function
reads from it: the strftime('%Y-%m-%d %H:%M:%S') key used for the historical
lookup and timetuple().tm_yday. -/
structure PyTimestamp where
  key : String
  tm_yday : ℤ

/-- The historical cache: station_id to (timestamp key to record), as nested
association lists. -/
def HistCache := List (String × List (String × HistFeat))

/-- The feature record built by extract_features (the ~65 features, in the
source's construction order). -/
structure FeatureVector where
  no2_column_center : ℝ
  urban_proximity_index : ℝ
  distance_to_nearest_city_km : ℝ
  no2_avg_5km : ℝ
  no2_max_5km : ℝ
  no2_min_5km : ℝ
  no2_std_5km : ℝ
  no2_avg_10km : ℝ
  no2_max_10km : ℝ
  no2_min_10km : ℝ
  no2_std_10km : ℝ
  no2_avg_20km : ℝ
  no2_max_20km : ℝ
  no2_min_20km : ℝ
  no2_std_20km : ℝ
  no2_upwind_10km_avg : ℝ
  no2_upwind_10km_max : ℝ
  no2_upwind_10km_std : ℝ
  no2_upwind_20km_avg : ℝ
  no2_upwind_20km_max : ℝ
  no2_upwind_20km_std : ℝ
  no2_upwind_30km_avg : ℝ
  no2_upwind_30km_max : ℝ
  no2_upwind_30km_std : ℝ
  no2_downwind_10km_avg : ℝ
  no2_downwind_10km_max : ℝ
  no2_downwind_10km_std : ℝ
  no2_north_10km : ℝ
  no2_north_std_10km : ℝ
  no2_east_10km : ℝ
  no2_east_std_10km : ℝ
  no2_south_10km : ℝ
  no2_south_std_10km : ℝ
  no2_west_10km : ℝ
  no2_west_std_10km : ℝ
  gradient_NS : ℝ
  gradient_EW : ℝ
  gradient_upwind_downwind : ℝ
  gradient_center_avg : ℝ
  wind_speed : ℝ
  wind_direction : ℝ
  wind_u : ℝ
  wind_v : ℝ
  pbl_height : ℝ
  temperature : ℝ
  precipitation : ℝ
  pbl_normalized : ℝ
  hour : ℝ
  day_of_week : ℝ
  month : ℝ
  hour_sin : ℝ
  hour_cos : ℝ
  day_sin : ℝ
  day_cos : ℝ
  physics_prediction : ℝ
  no2_avg_24h : ℝ
  no2_avg_7d : ℝ
  no2_trend_24h : ℝ
  wind_speed_x_upwind_no2 : ℝ
  hour_x_urban : ℝ
  pbl_x_center_no2 : ℝ
  day_of_year : ℝ
  month_sin : ℝ
  month_cos : ℝ

/-- extract_features: None when no center cell exists (empty grid), otherwise
the full feature record.  The unused meteo parameter of the source (passed
but never read inside the function) is omitted.  The historical branch models
Python truthiness: the cache must be a non-empty dict, the station id a
non-empty string, and a timestamp must be supplied; a failed lookup leaves
the empty dict, whose per-field .get defaults are 0. -/
noncomputable def extract_features (cells : List GridCell)
    (epa_lat epa_lon wind_speed wind_dir pbl_height temp precip : ℝ)
    (hour day_of_week month : ℤ) (station_id : Option String)
    (timestamp : Option PyTimestamp) (epa_historical : Option HistCache) :
    Option FeatureVector :=
  match find_nearest_cell cells epa_lat epa_lon with
  | none => none
  | some center_cell =>
    let neighbors_5km := get_cells_in_radius cells epa_lat epa_lon 5
    let neighbors_10km := get_cells_in_radius cells epa_lat epa_lon 10
    let neighbors_20km := get_cells_in_radius cells epa_lat epa_lon 20
    let upwind_10km := get_upwind_cells cells epa_lat epa_lon wind_dir 10 5
    let upwind_20km := get_upwind_cells cells epa_lat epa_lon wind_dir 20 5
    let upwind_30km := get_upwind_cells cells epa_lat epa_lon wind_dir 30 5
    let downwind_10km := get_downwind_cells cells epa_lat epa_lon wind_dir 10 5
    let north_10km := get_cells_in_direction cells epa_lat epa_lon 0 10 5
    let east_10km := get_cells_in_direction cells epa_lat epa_lon 90 10 5
    let south_10km := get_cells_in_direction cells epa_lat epa_lon 180 10 5
    let west_10km := get_cells_in_direction cells epa_lat epa_lon 270 10 5
    let no2_5km := extract_no2_valuesR neighbors_5km
    let no2_10km := extract_no2_valuesR neighbors_10km
    let no2_20km := extract_no2_valuesR neighbors_20km
    let no2_upwind_10 := extract_no2_valuesR upwind_10km
    let no2_upwind_20 := extract_no2_valuesR upwind_20km
    let no2_upwind_30 := extract_no2_valuesR upwind_30km
    let no2_downwind := extract_no2_valuesR downwind_10km
    let no2_north := extract_no2_valuesR north_10km
    let no2_east := extract_no2_valuesR east_10km
    let no2_south := extract_no2_valuesR south_10km
    let no2_west := extract_no2_valuesR west_10km
    let local_hour := (hour - 8) % 24
    let geo := get_geographic_features epa_lat epa_lon
    let historical : Option HistFeat :=
      match epa_historical, station_id, timestamp with
      | some h, some sid, some ts =>
          if h.length ≠ 0 ∧ sid ≠ "" ∧ ts.key ≠ "" then
            ((h.lookup sid).getD []).lookup ts.key
          else none
      | _, _, _ => none
    some {
      no2_column_center := center_cell.no2_column.getD 0
      urban_proximity_index := geo.1
      distance_to_nearest_city_km := geo.2
      no2_avg_5km := safe_avg no2_5km
      no2_max_5km := safe_max no2_5km
      no2_min_5km := safe_min no2_5km
      no2_std_5km := safe_std no2_5km
      no2_avg_10km := safe_avg no2_10km
      no2_max_10km := safe_max no2_10km
      no2_min_10km := safe_min no2_10km
      no2_std_10km := safe_std no2_10km
      no2_avg_20km := safe_avg no2_20km
      no2_max_20km := safe_max no2_20km
      no2_min_20km := safe_min no2_20km
      no2_std_20km := safe_std no2_20km
      no2_upwind_10km_avg := safe_avg no2_upwind_10
      no2_upwind_10km_max := safe_max no2_upwind_10
      no2_upwind_10km_std := safe_std no2_upwind_10
      no2_upwind_20km_avg := safe_avg no2_upwind_20
      no2_upwind_20km_max := safe_max no2_upwind_20
      no2_upwind_20km_std := safe_std no2_upwind_20
      no2_upwind_30km_avg := safe_avg no2_upwind_30
      no2_upwind_30km_max := safe_max no2_upwind_30
      no2_upwind_30km_std := safe_std no2_upwind_30
      no2_downwind_10km_avg := safe_avg no2_downwind
      no2_downwind_10km_max := safe_max no2_downwind
      no2_downwind_10km_std := safe_std no2_downwind
      no2_north_10km := safe_avg no2_north
      no2_north_std_10km := safe_std no2_north
      no2_east_10km := safe_avg no2_east
      no2_east_std_10km := safe_std no2_east
      no2_south_10km := safe_avg no2_south
      no2_south_std_10km := safe_std no2_south
      no2_west_10km := safe_avg no2_west
      no2_west_std_10km := safe_std no2_west
      gradient_NS := (safe_avg no2_north - safe_avg no2_south) / 20000
      gradient_EW := (safe_avg no2_east - safe_avg no2_west) / 20000
      gradient_upwind_downwind :=
        (safe_avg no2_upwind_10 - safe_avg no2_downwind) / 20000
      gradient_center_avg :=
        (center_cell.no2_column.getD 0 - safe_avg no2_10km) / 10000
      wind_speed := wind_speed
      wind_direction := wind_dir
      wind_u := wind_speed * Real.cos (radians wind_dir)
      wind_v := wind_speed * Real.sin (radians wind_dir)
      pbl_height := pbl_height
      temperature := temp
      precipitation := precip
      pbl_normalized := pbl_height / 800
      hour := (local_hour : ℝ)
      day_of_week := (day_of_week : ℝ)
      month := (month : ℝ)
      hour_sin := Real.sin (2 * Real.pi * (local_hour : ℝ) / 24)
      hour_cos := Real.cos (2 * Real.pi * (local_hour : ℝ) / 24)
      day_sin := Real.sin (2 * Real.pi * (day_of_week : ℝ) / 7)
      day_cos := Real.cos (2 * Real.pi * (day_of_week : ℝ) / 7)
      physics_prediction := physicsPred center_cell.no2_column pbl_height hour
      no2_avg_24h := (historical.map (fun r => r.h_avg_24h)).getD 0
      no2_avg_7d := (historical.map (fun r => r.h_avg_7d)).getD 0
      no2_trend_24h := (historical.map (fun r => r.h_trend_24h)).getD 0
      wind_speed_x_upwind_no2 := wind_speed * safe_avg no2_upwind_30
      hour_x_urban := (local_hour : ℝ) * geo.1
      pbl_x_center_no2 := pbl_height * center_cell.no2_column.getD 0
      day_of_year := (timestamp.map (fun t => (t.tm_yday : ℝ))).getD 0
      month_sin :=
        match timestamp with
        | some _ => Real.sin (2 * Real.pi * (month : ℝ) / 12)
        | none => 0
      month_cos :=
        match timestamp with
        | some _ => Real.cos (2 * Real.pi * (month : ℝ) / 12)
        | none => 0 }


/-- Constant-zero distance function used by concrete witnesses. -/
def dstZero : ℚ → ℚ → ℚ → ℚ → ℚ := fun _ _ _ _ => 0

/-- Distance function returning the station longitude, used to order concrete
stations in scenarios. -/
def dstLon : ℚ → ℚ → ℚ → ℚ → ℚ := fun _ _ _ clon => clon

def mcW1 : MeteoCity :=
  ⟨"W1", 0, 0, ["t0"], [some 3], [none], [], [], [], [], [], []⟩

def mcW2 : MeteoCity := ⟨"W2", 0, 0, ["t1"], [some 3], [], [], [], [], [], [], []⟩

def mcW3 : MeteoCity := ⟨"W3", 0, 0, ["t0"], [none], [], [], [], [], [], [], []⟩

def mcS1 : MeteoCity := ⟨"S1", 0, 1, ["t"], [some 1], [], [], [], [], [], [], []⟩

def mcS2 : MeteoCity := ⟨"S2", 0, 2, ["x"], [some 2], [], [], [], [], [], [], []⟩

def mcS3 : MeteoCity := ⟨"S3", 0, 3, ["t"], [some 3], [], [], [], [], [], [], []⟩

def mcS4 : MeteoCity := ⟨"S4", 0, 1, ["x"], [some 4], [], [], [], [], [], [], []⟩

def mcS5 : MeteoCity := ⟨"S5", 0, 2, ["t"], [some 5], [], [], [], [], [], [], []⟩


/-- A cell 2 degrees of longitude east of the query point (60, 0): flat-earth
distance sqrt(0 + 2^2) * 111 = 222 km, haversine distance about 111 km (the
longitude degree shrinks by cos 60 = 1/2 at that latitude). -/
noncomputable def cellEast : GridCell := ⟨60, 2, some 1⟩

/-- A cell 1.3 degrees of latitude south of the query point (60, 0):
flat-earth distance 1.3 * 111 = 144.3 km, haversine distance about 144.5 km;
nearer than cellEast for the flat-earth metric, farther for haversine. -/
noncomputable def cellSouth : GridCell := ⟨58.7, 0, some 1⟩

/-! ## Theorems: historical aggregator (C5, C6) -/

lemma no2_avg_24h_go_get? :
    ∀ (rest prev : List (ℤ × ℚ)),
      (prev ++ rest).Pairwise (fun a b => a.1 < b.1) →
      ∀ (i : ℕ) (r : ℤ × ℚ), rest.get? i = some r →
      (no2_avg_24h_go prev rest).get? i = some (r.1,
        (((prev ++ rest).filter (fun x => decide (r.1 - 1440 < x.1) &&
          decide (x.1 ≤ r.1))).map (fun x => x.2)).sum /
        (((prev ++ rest).filter (fun x => decide (r.1 - 1440 < x.1) &&
          decide (x.1 ≤ r.1))).length : ℚ)) := by
  intro rest
  induction rest with
  | nil => intro prev _ i r hr; simp at hr
  | cons r0 rest' ih =>
      intro prev hp i r hr
      have hp2 : ((prev ++ [r0]) ++ rest').Pairwise (fun a b => a.1 < b.1) := by
        rw [List.append_assoc]; simpa using hp
      cases i with
      | zero =>
          simp only [List.get?] at hr
          cases hr
          have hrest' : ∀ x ∈ rest', ¬(decide (r0.1 - 1440 < x.1) &&
              decide (x.1 ≤ r0.1)) = true := by
            intro x hx
            have hlt : r0.1 < x.1 := by
              have hpr : (r0 :: rest').Pairwise (fun a b => a.1 < b.1) :=
                (List.pairwise_append.mp hp).2.1
              exact (List.pairwise_cons.mp hpr).1 x hx
            simp [not_le.mpr hlt]
          have hnil : rest'.filter (fun x => decide (r0.1 - 1440 < x.1) &&
              decide (x.1 ≤ r0.1)) = [] :=
            List.filter_eq_nil_iff.mpr hrest'
          have hp0 : (decide (r0.1 - 1440 < r0.1) && decide (r0.1 ≤ r0.1))
              = true := by
            simp only [Bool.and_eq_true, decide_eq_true_eq]
            omega
          have hfilter : ((prev ++ r0 :: rest').filter
              (fun x => decide (r0.1 - 1440 < x.1) && decide (x.1 ≤ r0.1))) =
              ((prev ++ [r0]).filter
              (fun x => decide (r0.1 - 1440 < x.1) && decide (x.1 ≤ r0.1))) := by
            simp only [List.filter_append, List.filter_cons, List.filter_nil,
              hnil, hp0, if_true]
          simp only [no2_avg_24h_go, List.get?, hfilter]
      | succ i' =>
          simp only [List.get?] at hr
          simp only [no2_avg_24h_go, List.get?]
          have hgoal := ih (prev ++ [r0]) hp2 i' r hr
          rw [hgoal, List.append_assoc]
          simp

/-- C5 (amended): for a strictly time-sorted station series, no2_avg_24h at
row i is the arithmetic mean of the values whose timestamp lies in the
HALF-OPEN window (t - 24h, t]: the right endpoint (the row itself) is
included, a record at exactly t - 24h is excluded (pandas rolling offset
windows default to closed='right').  Timestamps are minutes; 24h = 1440. -/
theorem no2_avg_24h_halfopen_window (rows : List (ℤ × ℚ))
    (hs : rows.Pairwise (fun a b => a.1 < b.1)) (i : ℕ) (r : ℤ × ℚ)
    (hr : rows.get? i = some r) :
    (no2_avg_24h_series rows).get? i = some (r.1,
      ((rows.filter (fun x => decide (r.1 - 1440 < x.1) &&
        decide (x.1 ≤ r.1))).map (fun x => x.2)).sum /
      ((rows.filter (fun x => decide (r.1 - 1440 < x.1) &&
        decide (x.1 ≤ r.1))).length : ℚ)) := by
  have hgo := no2_avg_24h_go_get? rows [] (by simpa using hs) i r hr
  simpa [no2_avg_24h_series] using hgo

theorem no2_avg_24h_halfopen_window_witness :
    ([((0 : ℤ), (10 : ℚ)), (1380, 20), (1500, 5)].Pairwise
      (fun a b => a.1 < b.1) ∧
     [((0 : ℤ), (10 : ℚ)), (1380, 20), (1500, 5)].get? 2 = some (1500, 5)) ∧
    (no2_avg_24h_series [(0, 10), (1380, 20), (1500, 5)]).get? 2 =
      some ((1500 : ℤ),
        ((([((0 : ℤ), (10 : ℚ)), (1380, 20), (1500, 5)]).filter
          (fun x => decide ((1500 : ℤ) - 1440 < x.1) &&
            decide (x.1 ≤ (1500 : ℤ)))).map (fun x => x.2)).sum /
        ((([((0 : ℤ), (10 : ℚ)), (1380, 20), (1500, 5)]).filter
          (fun x => decide ((1500 : ℤ) - 1440 < x.1) &&
            decide (x.1 ≤ (1500 : ℤ)))).length : ℚ)) :=
  ⟨⟨by decide, by decide⟩,
   no2_avg_24h_halfopen_window [(0, 10), (1380, 20), (1500, 5)] (by decide)
     2 (1500, 5) (by decide)⟩

/-- C5 (counterexample): the claim says the window is the closed interval
[t - 24h, t], both endpoints inclusive.  On the series with rows at t = 0
(value 10) and t = 1440 minutes = exactly 24h later (value 0), the code's
mean at the second row is 0 (the row at exactly t - 24h is excluded), while
the claimed closed-window mean is (10 + 0) / 2 = 5. -/
theorem no2_avg_24h_left_endpoint_cx :
    no2_avg_24h_series [(0, 10), (1440, 0)] = [(0, 10), (1440, 0)] ∧
    no2_avg_24h_closed [(0, 10), (1440, 0)] = [(0, 10), (1440, 5)] ∧
    no2_avg_24h_series [(0, 10), (1440, 0)] ≠
      no2_avg_24h_closed [(0, 10), (1440, 0)] := by
  refine ⟨?_, ?_, ?_⟩
  · norm_num [no2_avg_24h_series, no2_avg_24h_go]
  · norm_num [no2_avg_24h_closed]
  · norm_num [no2_avg_24h_series, no2_avg_24h_go, no2_avg_24h_closed]

lemma lookupTime_shift24h (rows : List (ℤ × ℚ)) (t : ℤ) :
    lookupTime (shift24h rows) t = lookupTime rows (t - 1440) := by
  unfold lookupTime shift24h
  rw [List.find?_map]
  have hpred : ((fun r : ℤ × ℚ => decide (r.1 = t)) ∘
      (fun r : ℤ × ℚ => (r.1 + 1440, r.2))) =
      fun r : ℤ × ℚ => decide (r.1 = t - 1440) := by
    funext r
    simp only [Function.comp]
    by_cases h : r.1 = t - 1440
    · simp [h, Int.sub_add_cancel]
    · have hne : ¬(r.1 + 1440 = t) := by omega
      simp [h, hne]
  rw [hpred, Option.map_map]
  rfl

/-- C6: no2_trend_24h at each row equals
(value[t] - value[t-24h]) / (|value[t-24h]| + 0.1) where value[t-24h] is
looked up at exactly t - 24h of calendar time in the original series, and 0
when no such record exists (the NaN produced by the missing alignment is
filled with 0). -/
theorem no2_trend_24h_time_indexed (rows : List (ℤ × ℚ)) :
    no2_trend_24h_series rows = rows.map (fun r => (r.1,
      match lookupTime rows (r.1 - 1440) with
      | some vp => (r.2 - vp) / (|vp| + 1/10)
      | none => 0)) := by
  unfold no2_trend_24h_series
  apply List.map_congr_left
  intro r _
  rw [lookupTime_shift24h]

/-! ## Theorems: meteorological interpolation (C1, C3, C10) -/

lemma sum_filterMap_varContrib (v : MeteoVar) (l : List (MeteoCity × ℚ × ℕ)) :
    (l.filterMap (varContrib v)).sum =
      (l.map (fun m => (varValue v m).getD 0 * idwWeight m.2.1)).sum := by
  induction l with
  | nil => rfl
  | cons m rest ih =>
      cases h : varValue v m with
      | none => simp [List.filterMap_cons, varContrib, h, ih]
      | some x => simp [List.filterMap_cons, varContrib, h, ih]

/-- C1: whenever at least one selected station matches the timestamp and has
a non-null value for variable v, the interpolated value of v is the sum of
value times weight over the matching stations with non-null values, divided
by the sum of the weights of ALL matching selected stations (nulls included),
with weight = 1 / (distance + 0.1)^2. -/
theorem interpolate_meteo_weighted_average (idx : List MeteoCity) (lat lon : ℚ)
    (ts : String) (k : ℕ) (dst : ℚ → ℚ → ℚ → ℚ → ℚ) (v : MeteoVar)
    (h : ∃ m ∈ matchedCities (get_nearest_cities idx lat lon k dst) ts,
      varValue v m ≠ none) :
    interpolate_meteo idx lat lon ts k dst v =
      ((matchedCities (get_nearest_cities idx lat lon k dst) ts).map
        (fun m => (varValue v m).getD 0 * idwWeight m.2.1)).sum /
      ((matchedCities (get_nearest_cities idx lat lon k dst) ts).map
        (fun m => idwWeight m.2.1)).sum := by
  obtain ⟨m, hm, hv⟩ := h
  have hmne : matchedCities (get_nearest_cities idx lat lon k dst) ts ≠ [] :=
    List.ne_nil_of_mem hm
  have hne : get_nearest_cities idx lat lon k dst ≠ [] := by
    intro h0
    rw [h0] at hm
    simp [matchedCities] at hm
  obtain ⟨x, hx⟩ := Option.ne_none_iff_exists'.mp hv
  have hvmem : x * idwWeight m.2.1 ∈
      (matchedCities (get_nearest_cities idx lat lon k dst) ts).filterMap
        (varContrib v) :=
    List.mem_filterMap.mpr ⟨m, hm, by simp [varContrib, hx]⟩
  have hvalid : (matchedCities (get_nearest_cities idx lat lon k dst) ts).filterMap
      (varContrib v) ≠ [] := List.ne_nil_of_mem hvmem
  simp only [interpolate_meteo, interpolateFrom]
  rw [if_neg hne, if_neg hmne]
  simp only [if_neg hvalid]
  rw [sum_filterMap_varContrib]

theorem interpolate_meteo_weighted_average_witness :
    (∃ m ∈ matchedCities (get_nearest_cities [mcW1] 0 0 3 dstZero) "t0",
      varValue MeteoVar.ws m ≠ none) ∧
    interpolate_meteo [mcW1] 0 0 "t0" 3 dstZero MeteoVar.ws =
      ((matchedCities (get_nearest_cities [mcW1] 0 0 3 dstZero) "t0").map
        (fun m => (varValue MeteoVar.ws m).getD 0 * idwWeight m.2.1)).sum /
      ((matchedCities (get_nearest_cities [mcW1] 0 0 3 dstZero) "t0").map
        (fun m => idwWeight m.2.1)).sum :=
  ⟨by decide,
   interpolate_meteo_weighted_average [mcW1] 0 0 "t0" 3 dstZero MeteoVar.ws
     (by decide)⟩

/-- C3: the interpolation never fails on missing data (it is a total
function) and returns the documented defaults: the full default record for an
empty index, the full default record when no selected station matches the
timestamp, and the per-variable default when every matching station is null
for that variable. -/
theorem interpolate_meteo_default_on_missing :
    (∀ (lat lon : ℚ) (ts : String) (k : ℕ) (dst : ℚ → ℚ → ℚ → ℚ → ℚ),
      interpolate_meteo [] lat lon ts k dst = MeteoVar.deflt) ∧
    (∀ (idx : List MeteoCity) (lat lon : ℚ) (ts : String) (k : ℕ)
      (dst : ℚ → ℚ → ℚ → ℚ → ℚ),
      matchedCities (get_nearest_cities idx lat lon k dst) ts = [] →
      interpolate_meteo idx lat lon ts k dst = MeteoVar.deflt) ∧
    (∀ (idx : List MeteoCity) (lat lon : ℚ) (ts : String) (k : ℕ)
      (dst : ℚ → ℚ → ℚ → ℚ → ℚ) (v : MeteoVar),
      (∀ m ∈ matchedCities (get_nearest_cities idx lat lon k dst) ts,
        varValue v m = none) →
      interpolate_meteo idx lat lon ts k dst v = MeteoVar.deflt v) := by
  refine ⟨?_, ?_, ?_⟩
  · intro lat lon ts k dst
    simp [interpolate_meteo, get_nearest_cities]
  · intro idx lat lon ts k dst hm
    simp only [interpolate_meteo, interpolateFrom]
    by_cases hne : get_nearest_cities idx lat lon k dst = []
    · rw [if_pos hne]
    · rw [if_neg hne, if_pos hm]
  · intro idx lat lon ts k dst v hall
    simp only [interpolate_meteo, interpolateFrom]
    by_cases hne : get_nearest_cities idx lat lon k dst = []
    · rw [if_pos hne]
    · rw [if_neg hne]
      by_cases hm : matchedCities (get_nearest_cities idx lat lon k dst) ts = []
      · rw [if_pos hm]
      · rw [if_neg hm]
        have hvalid : (matchedCities (get_nearest_cities idx lat lon k dst)
            ts).filterMap (varContrib v) = [] :=
          List.filterMap_eq_nil_iff.mpr
            (fun m hm2 => by simp [varContrib, hall m hm2])
        simp [hvalid]


theorem interpolate_meteo_default_on_missing_witness :
    (matchedCities (get_nearest_cities [mcW2] 0 0 3 dstZero) "t0" = [] ∧
      interpolate_meteo [mcW2] 0 0 "t0" 3 dstZero = MeteoVar.deflt) ∧
    ((∀ m ∈ matchedCities (get_nearest_cities [mcW3] 0 0 3 dstZero) "t0",
        varValue MeteoVar.ws m = none) ∧
      interpolate_meteo [mcW3] 0 0 "t0" 3 dstZero MeteoVar.ws =
        MeteoVar.deflt MeteoVar.ws) :=
  ⟨⟨by decide,
    interpolate_meteo_default_on_missing.2.1 [mcW2] 0 0 "t0" 3 dstZero
      (by decide)⟩,
   ⟨by decide,
    interpolate_meteo_default_on_missing.2.2 [mcW3] 0 0 "t0" 3 dstZero
      MeteoVar.ws (by decide)⟩⟩


/-- C10: station selection is purely by distance rank and happens before the
timestamp filter.  Part 1: exactly min(k, #stations) stations are selected,
independently of the timestamp.  Part 2: the selection is sorted ascending by
distance.  Part 3 (concrete): with three stations at distances 1, 2, 3 and
k = 2, where the second-nearest lacks the timestamp, only one station is
used although two stations of the index match the timestamp (the skipped
station is not replaced).  Part 4 (concrete): with k = 1 and the nearest
station lacking the timestamp, the full default record is returned although a
farther station matches. -/
theorem station_selection_before_timestamp_filter :
    (∀ (idx : List MeteoCity) (lat lon : ℚ) (k : ℕ)
      (dst : ℚ → ℚ → ℚ → ℚ → ℚ),
      (get_nearest_cities idx lat lon k dst).length = min k idx.length) ∧
    (∀ (idx : List MeteoCity) (lat lon : ℚ) (k : ℕ)
      (dst : ℚ → ℚ → ℚ → ℚ → ℚ),
      (get_nearest_cities idx lat lon k dst).Sorted (fun a b => a.2 ≤ b.2)) ∧
    ((matchedCities (get_nearest_cities [mcS1, mcS2, mcS3] 0 0 2 dstLon)
        "t").length = 1 ∧
      2 ≤ ([mcS1, mcS2, mcS3].filter (fun c =>
        (c.times.findIdx? (fun s => decide (s = "t"))).isSome)).length) ∧
    ((∀ v, interpolate_meteo [mcS4, mcS5] 0 0 "t" 1 dstLon v =
        MeteoVar.deflt v) ∧
      ∃ c ∈ [mcS4, mcS5],
        (c.times.findIdx? (fun s => decide (s = "t"))).isSome) := by
  refine ⟨?_, ?_, by decide, by decide⟩
  · intro idx lat lon k dst
    simp [get_nearest_cities]
  · intro idx lat lon k dst
    haveI h1 : IsTotal (MeteoCity × ℚ) (fun a b => a.2 ≤ b.2) :=
      ⟨fun a b => le_total a.2 b.2⟩
    haveI h2 : IsTrans (MeteoCity × ℚ) (fun a b => a.2 ≤ b.2) :=
      ⟨fun a b c hab hbc => le_trans hab hbc⟩
    exact List.Pairwise.sublist (List.take_sublist _ _)
      (List.sorted_insertionSort _ _)

/-! ## Theorems: NO2 validity filter (C8) -/

/-- C8 (counterexample): the claim says every non-finite value (NaN or
infinite) contributes to no aggregate, but the source filter
`c.get('no2_column') and c['no2_column'] > 0` keeps +infinity: it is truthy
and satisfies inf > 0, so a cell holding +infinity does contribute to the
aggregates computed from this list. -/
theorem extract_no2_values_keeps_pos_infinity_cx :
    extract_no2_values [⟨0, 0, some PyFloat.inf⟩] = [PyFloat.inf] ∧
    PyFloat.inf ∈ extract_no2_values [⟨0, 0, some PyFloat.inf⟩] := by
  constructor
  · rfl
  · simp [extract_no2_values, PyFloat.truthy, PyFloat.gtZero]

/-- C8 (amended): a value contributes to the aggregates exactly when it is
present and either a finite strictly positive value or +infinity; zero,
negative values, NaN and -infinity are excluded. -/
theorem extract_no2_values_membership (cells : List PCell) (v : PyFloat) :
    v ∈ extract_no2_values cells ↔
      (∃ c ∈ cells, c.no2_column = some v) ∧
        ((∃ q : ℚ, v = PyFloat.finite q ∧ 0 < q) ∨ v = PyFloat.inf) := by
  unfold extract_no2_values
  rw [List.mem_filterMap]
  constructor
  · rintro ⟨c, hc, hfc⟩
    cases hcol : c.no2_column with
    | none => rw [hcol] at hfc; simp at hfc
    | some w =>
        rw [hcol] at hfc
        have hfc2 : (if (w.truthy && w.gtZero) = true then some w else none)
            = some v := hfc
        by_cases hpass : (w.truthy && w.gtZero) = true
        · rw [if_pos hpass] at hfc2
          cases hfc2
          refine ⟨⟨c, hc, hcol⟩, ?_⟩
          cases v with
          | finite q =>
              left
              refine ⟨q, rfl, ?_⟩
              have hq := hpass
              simp [PyFloat.truthy, PyFloat.gtZero] at hq
              exact hq.2
          | nan => simp [PyFloat.truthy, PyFloat.gtZero] at hpass
          | inf => right; rfl
          | ninf => simp [PyFloat.truthy, PyFloat.gtZero] at hpass
        · rw [if_neg hpass] at hfc2
          simp at hfc2
  · rintro ⟨⟨c, hc, hcol⟩, hval⟩
    refine ⟨c, hc, ?_⟩
    rw [hcol]
    have hpass : (v.truthy && v.gtZero) = true := by
      rcases hval with ⟨q, rfl, hq⟩ | rfl
      · simp [PyFloat.truthy, PyFloat.gtZero, hq, ne_of_gt hq]
      · simp [PyFloat.truthy, PyFloat.gtZero]
    show (if (v.truthy && v.gtZero) = true then some v else none) = some v
    rw [if_pos hpass]

/-! ## Theorems: feature extractor (C4, C7, C9) -/

/-- C4: the physical baseline: 0 for an absent or non-positive column
density; otherwise column * 2e-16 * 1.8749 * sqrt(800 / max(pbl, 300)) times
the diurnal factor of the local hour (utc_hour - 8) mod 24; and at
column = 1e16, pbl = 800 and local hour 8 (utc hour 16, factor 1.15) it is
exactly 1e16 * 2e-16 * 1.8749 * 1.15. -/
theorem physics_prediction_formula :
    (∀ (pbl : ℝ) (h : ℤ), physicsPred none pbl h = 0) ∧
    (∀ (c pbl : ℝ) (h : ℤ), c ≤ 0 → physicsPred (some c) pbl h = 0) ∧
    (∀ (c pbl : ℝ) (h : ℤ), 0 < c → physicsPred (some c) pbl h =
      c * (2e-16 : ℝ) * (1.8749 : ℝ) * Real.sqrt (800 / max pbl 300) *
        diurnalFactor ((h - 8) % 24)) ∧
    physicsPred (some 1e16) 800 16 = (1e16 : ℝ) * 2e-16 * 1.8749 * 1.15 := by
  have hunfold : ∀ (c pbl : ℝ) (h : ℤ), 0 < c → physicsPred (some c) pbl h =
      c * (2e-16 : ℝ) * (1.8749 : ℝ) * Real.sqrt (800 / max pbl 300) *
        diurnalFactor ((h - 8) % 24) := by
    intro c pbl h hc
    simp only [physicsPred, convert_no2_to_surface, Option.getD_some]
    rw [if_neg (not_le.mpr hc)]
    norm_num [BASE_FACTOR, NO2_FACTOR, PBL_REF]
  refine ⟨?_, ?_, hunfold, ?_⟩
  · intro pbl h
    simp [physicsPred, convert_no2_to_surface]
  · intro c pbl h hc
    simp [physicsPred, convert_no2_to_surface, hc]
  · rw [hunfold 1e16 800 16 (by norm_num)]
    have hmax : max (800 : ℝ) 300 = 800 := by norm_num
    have hmod : ((16 : ℤ) - 8) % 24 = 8 := by decide
    rw [hmax, hmod]
    have hsq : Real.sqrt ((800 : ℝ) / 800) = 1 := by
      norm_num [Real.sqrt_one]
    rw [hsq]
    have hdf : diurnalFactor 8 = 1.15 := by norm_num [diurnalFactor]
    rw [hdf]
    ring

theorem physics_prediction_formula_witness :
    ((-1 : ℝ) ≤ 0 ∧ physicsPred (some (-1)) 500 3 = 0) ∧
    ((0 : ℝ) < 2 ∧ physicsPred (some 2) 650 5 =
      2 * (2e-16 : ℝ) * (1.8749 : ℝ) * Real.sqrt (800 / max 650 300) *
        diurnalFactor (((5 : ℤ) - 8) % 24)) :=
  ⟨⟨by norm_num, physics_prediction_formula.2.1 (-1) 500 3 (by norm_num)⟩,
   ⟨by norm_num, physics_prediction_formula.2.2.1 2 650 5 (by norm_num)⟩⟩

lemma find_nearest_go_isSome (d : GridCell → ℝ) :
    ∀ (l : List GridCell) (p : GridCell × ℝ),
      ∃ q, find_nearest_go d l (some p) = some q := by
  intro l
  induction l with
  | nil => intro p; exact ⟨p, rfl⟩
  | cons c rest ih =>
      intro p
      obtain ⟨b, db⟩ := p
      simp only [find_nearest_go]
      by_cases hlt : d c < db
      · rw [if_pos hlt]; exact ih _
      · rw [if_neg hlt]; exact ih _

/-- C7: with an empty cell list the extractor returns no feature vector (and,
being a total function, raises nothing); with any non-empty cell list the
nearest-cell search succeeds and a feature vector is produced. -/
theorem extract_features_empty_and_nonempty :
    (∀ (lat lon ws wd pbl tp pr : ℝ) (h dw mo : ℤ) (sid : Option String)
      (ts : Option PyTimestamp) (hist : Option HistCache),
      extract_features [] lat lon ws wd pbl tp pr h dw mo sid ts hist = none) ∧
    (∀ (cells : List GridCell) (lat lon ws wd pbl tp pr : ℝ) (h dw mo : ℤ)
      (sid : Option String) (ts : Option PyTimestamp) (hist : Option HistCache),
      cells ≠ [] →
      ∃ f, extract_features cells lat lon ws wd pbl tp pr h dw mo sid ts hist =
        some f) := by
  constructor
  · intro lat lon ws wd pbl tp pr h dw mo sid ts hist
    rfl
  · intro cells lat lon ws wd pbl tp pr h dw mo sid ts hist hne
    cases cells with
    | nil => exact absurd rfl hne
    | cons c rest =>
        obtain ⟨q, hq⟩ := find_nearest_go_isSome
          (fun x => haversine_distance lat lon x.latitude x.longitude) rest
          (c, haversine_distance lat lon c.latitude c.longitude)
        have hfind : find_nearest_cell (c :: rest) lat lon = some q.1 := by
          simp only [find_nearest_cell, find_nearest_by, find_nearest_go, hq,
            Option.map_some']
        exact ⟨_, by unfold extract_features; rw [hfind]⟩

theorem extract_features_empty_and_nonempty_witness :
    ([(⟨0, 0, none⟩ : GridCell)] ≠ [] ∧
      ∃ f, extract_features [(⟨0, 0, none⟩ : GridCell)] 0 0 0 0 0 0 0 0 0 0
        none none none = some f) :=
  ⟨by simp,
   extract_features_empty_and_nonempty.2 [⟨0, 0, none⟩] 0 0 0 0 0 0 0 0 0 0
     none none none (by simp)⟩

/-- C9: the feature extractor is a pure function: two calls on identical
inputs return identical feature vectors (the embedding is deterministic by
construction, mirroring the source, which reads no global mutable state and
calls no randomness inside extract_features). -/
theorem extract_features_deterministic
    (cells cells' : List GridCell)
    (lat lat' lon lon' ws ws' wd wd' pbl pbl' tp tp' pr pr' : ℝ)
    (h h' dw dw' mo mo' : ℤ) (sid sid' : Option String)
    (ts ts' : Option PyTimestamp) (hist hist' : Option HistCache)
    (e1 : cells = cells') (e2 : lat = lat') (e3 : lon = lon') (e4 : ws = ws')
    (e5 : wd = wd') (e6 : pbl = pbl') (e7 : tp = tp') (e8 : pr = pr')
    (e9 : h = h') (e10 : dw = dw') (e11 : mo = mo') (e12 : sid = sid')
    (e13 : ts = ts') (e14 : hist = hist') :
    extract_features cells lat lon ws wd pbl tp pr h dw mo sid ts hist =
      extract_features cells' lat' lon' ws' wd' pbl' tp' pr' h' dw' mo' sid'
        ts' hist' := by
  subst e1 e2 e3 e4 e5 e6 e7 e8 e9 e10 e11 e12 e13 e14
  rfl

theorem extract_features_deterministic_witness :
    extract_features [(⟨1, 2, some 3⟩ : GridCell)] 0 0 1 90 800 20 0 16 2 5
        (some "s") (some ⟨"k", 40⟩) (some []) =
      extract_features [(⟨1, 2, some 3⟩ : GridCell)] 0 0 1 90 800 20 0 16 2 5
        (some "s") (some ⟨"k", 40⟩) (some []) :=
  extract_features_deterministic _ _ _ _ _ _ _ _ _ _ _ _ _ _ _ _ _ _ _ _ _ _
    _ _ _ _ _ _ rfl rfl rfl rfl rfl rfl rfl rfl rfl rfl rfl rfl rfl rfl

theorem extract_no2_values_membership_witness :
    PyFloat.finite 3 ∈ extract_no2_values [⟨0, 0, some (PyFloat.finite 3)⟩] :=
  (extract_no2_values_membership [⟨0, 0, some (PyFloat.finite 3)⟩]
    (PyFloat.finite 3)).mpr
    ⟨⟨⟨0, 0, some (PyFloat.finite 3)⟩, by simp, rfl⟩,
     Or.inl ⟨3, rfl, by norm_num⟩⟩

/-! ## Theorems: neighbor-search distance metric (C2) -/

lemma get_cells_in_radius_eq_filter (cells : List GridCell) (clat clon r : ℝ) :
    get_cells_in_radius cells clat clon r = cells.filter (fun c =>
      decide (haversine_distance clat clon c.latitude c.longitude ≤ r)) := by
  induction cells with
  | nil => rfl
  | cons c rest ih =>
      simp only [get_cells_in_radius, List.filter_cons]
      by_cases hd : haversine_distance clat clon c.latitude c.longitude ≤ r
      · rw [if_pos hd, ih]; simp [hd]
      · rw [if_neg hd, ih]; simp [hd]

lemma find_nearest_go_min (d : GridCell → ℝ) :
    ∀ (l : List GridCell) (b : GridCell),
      ∃ b2, find_nearest_go d l (some (b, d b)) = some (b2, d b2) ∧
        (b2 = b ∨ b2 ∈ l) ∧ d b2 ≤ d b ∧ ∀ c ∈ l, d b2 ≤ d c := by
  intro l
  induction l with
  | nil =>
      intro b
      exact ⟨b, rfl, Or.inl rfl, le_refl _, by simp⟩
  | cons c rest ih =>
      intro b
      simp only [find_nearest_go]
      by_cases hlt : d c < d b
      · rw [if_pos hlt]
        obtain ⟨b2, heq, hmem, hle, hall⟩ := ih c
        refine ⟨b2, heq, ?_, le_trans hle hlt.le, ?_⟩
        · rcases hmem with rfl | hm
          · exact Or.inr (List.mem_cons_self _ _)
          · exact Or.inr (List.mem_cons_of_mem _ hm)
        · intro x hx
          rcases List.mem_cons.mp hx with rfl | hx2
          · exact hle
          · exact hall x hx2
      · rw [if_neg hlt]
        obtain ⟨b2, heq, hmem, hle, hall⟩ := ih b
        refine ⟨b2, heq, ?_, hle, ?_⟩
        · rcases hmem with rfl | hm
          · exact Or.inl rfl
          · exact Or.inr (List.mem_cons_of_mem _ hm)
        · intro x hx
          rcases List.mem_cons.mp hx with rfl | hx2
          · exact le_trans hle (not_lt.mp hlt)
          · exact hall x hx2

/-- C2 (amended): the feature extractor's neighbor searches rank and filter
by the haversine great-circle distance, not by the flat-earth approximation:
get_cells_in_radius keeps exactly the cells within haversine distance
radius_km, and find_nearest_cell returns a cell minimizing the haversine
distance (none exactly on the empty list).  The flat-earth formula appears
only in the grid-extraction scripts, outside the feature extractor. -/
theorem neighbor_searches_use_haversine :
    (∀ (cells : List GridCell) (clat clon r : ℝ),
      get_cells_in_radius cells clat clon r = cells.filter (fun c =>
        decide (haversine_distance clat clon c.latitude c.longitude ≤ r))) ∧
    (∀ (cells : List GridCell) (lat lon : ℝ),
      match find_nearest_cell cells lat lon with
      | none => cells = []
      | some c => c ∈ cells ∧ ∀ c2 ∈ cells,
          haversine_distance lat lon c.latitude c.longitude ≤
            haversine_distance lat lon c2.latitude c2.longitude) := by
  constructor
  · exact get_cells_in_radius_eq_filter
  · intro cells lat lon
    cases cells with
    | nil => simp [find_nearest_cell, find_nearest_by, find_nearest_go]
    | cons c rest =>
        obtain ⟨b2, heq, hmem, hle, hall⟩ := find_nearest_go_min
          (fun x => haversine_distance lat lon x.latitude x.longitude) rest c
        have hfind : find_nearest_cell (c :: rest) lat lon = some b2 := by
          simp only [find_nearest_cell, find_nearest_by, find_nearest_go, heq,
            Option.map_some']
        simp only [hfind]
        constructor
        · rcases hmem with rfl | hm
          · exact List.mem_cons_self _ _
          · exact List.mem_cons_of_mem _ hm
        · intro c2 hc2
          rcases List.mem_cons.mp hc2 with rfl | h2
          · exact hle
          · exact hall c2 h2

theorem neighbor_searches_use_haversine_witness :
    (match find_nearest_cell [] 0 0 with
     | none => ([] : List GridCell) = []
     | some c => c ∈ ([] : List GridCell) ∧ ∀ c2 ∈ ([] : List GridCell),
         haversine_distance 0 0 c.latitude c.longitude ≤
           haversine_distance 0 0 c2.latitude c2.longitude) :=
  neighbor_searches_use_haversine.2 [] 0 0

lemma arctan2_sqrt_lt {a1 a2 : ℝ} (h0 : 0 ≤ a1) (h12 : a1 < a2) (h21 : a2 < 1) :
    arctan2 (Real.sqrt a1) (Real.sqrt (1 - a1)) <
      arctan2 (Real.sqrt a2) (Real.sqrt (1 - a2)) := by
  have hc1 : 0 < Real.sqrt (1 - a1) := Real.sqrt_pos.mpr (by linarith)
  have hc2 : 0 < Real.sqrt (1 - a2) := Real.sqrt_pos.mpr (by linarith)
  unfold arctan2
  rw [if_pos hc1, if_pos hc2]
  apply Real.arctan_strictMono
  have hnum : Real.sqrt a1 < Real.sqrt a2 := (Real.sqrt_lt_sqrt_iff h0).mpr h12
  have hden : Real.sqrt (1 - a2) ≤ Real.sqrt (1 - a1) :=
    Real.sqrt_le_sqrt (by linarith)
  calc Real.sqrt a1 / Real.sqrt (1 - a1)
      ≤ Real.sqrt a1 / Real.sqrt (1 - a2) :=
        div_le_div_of_nonneg_left (Real.sqrt_nonneg _) hc2 hden
    _ < Real.sqrt a2 / Real.sqrt (1 - a2) := (div_lt_div_iff_of_pos_right hc2).mpr hnum

lemma hav_counterexample_lt :
    haversine_distance 60 0 60 2 < haversine_distance 60 0 58.7 0 := by
  have hπ := Real.pi_pos
  have h4π := Real.pi_le_four
  set u : ℝ := Real.pi / 3600 with hu
  have hupos : 0 < u := by positivity
  have h13pos : (0:ℝ) < 13 * u := by positivity
  have h13lt1 : 13 * u < 1 := by rw [hu]; nlinarith
  have h13ltpi : 13 * u < Real.pi := by rw [hu]; nlinarith
  have h13lthalf : 13 * u ≤ Real.pi / 2 := by rw [hu]; nlinarith
  have h7nonneg : (0:ℝ) ≤ 7 * u := by positivity
  have h20nonneg : (0:ℝ) ≤ 20 * u := by positivity
  have h20lepi : 20 * u ≤ Real.pi := by rw [hu]; nlinarith
  have hs13pos : 0 < Real.sin (13 * u) :=
    Real.sin_pos_of_pos_of_lt_pi h13pos h13ltpi
  have hs7nonneg : 0 ≤ Real.sin (7 * u) :=
    Real.sin_nonneg_of_nonneg_of_le_pi h7nonneg (by rw [hu]; nlinarith)
  have hs20nonneg : 0 ≤ Real.sin (20 * u) :=
    Real.sin_nonneg_of_nonneg_of_le_pi h20nonneg h20lepi
  have hs7lt : Real.sin (7 * u) < Real.sin (13 * u) :=
    Real.strictMonoOn_sin (Set.mem_Icc.mpr ⟨by linarith, by linarith⟩)
      (Set.mem_Icc.mpr ⟨by linarith, h13lthalf⟩) (by nlinarith)
  have hkey : Real.sin (20 * u) < 2 * Real.sin (13 * u) := by
    have h2013 : (20 : ℝ) * u = 13 * u + 7 * u := by ring
    rw [h2013, Real.sin_add]
    have t1 : Real.sin (13 * u) * Real.cos (7 * u) ≤ Real.sin (13 * u) :=
      mul_le_of_le_one_right hs13pos.le (Real.cos_le_one _)
    have t2 : Real.cos (13 * u) * Real.sin (7 * u) ≤ Real.sin (7 * u) :=
      mul_le_of_le_one_left hs7nonneg (Real.cos_le_one _)
    linarith
  have haElt : (1/4) * Real.sin (20 * u) ^ 2 < Real.sin (13 * u) ^ 2 := by
    nlinarith [mul_pos
      (by linarith : (0:ℝ) < 2 * Real.sin (13 * u) - Real.sin (20 * u))
      (by linarith : (0:ℝ) < 2 * Real.sin (13 * u) + Real.sin (20 * u))]
  have haS1 : Real.sin (13 * u) ^ 2 < 1 := by
    have hlt1 : Real.sin (13 * u) < 1 :=
      lt_trans (Real.sin_lt h13pos) h13lt1
    nlinarith [hs13pos]
  have haEnn : (0:ℝ) ≤ (1/4) * Real.sin (20 * u) ^ 2 := by positivity
  have haE : Real.sin (radians (60 - 60) / 2) ^ 2 +
      Real.cos (radians 60) * Real.cos (radians 60) *
        Real.sin (radians (2 - 0) / 2) ^ 2 = (1/4) * Real.sin (20 * u) ^ 2 := by
    have e1 : radians (60 - 60) / 2 = 0 := by unfold radians; ring
    have e2 : radians 60 = Real.pi / 3 := by unfold radians; ring
    have e3 : radians (2 - 0) / 2 = 20 * u := by rw [hu]; unfold radians; ring
    rw [e1, e2, e3, Real.cos_pi_div_three, Real.sin_zero]
    ring
  have haS : Real.sin (radians (58.7 - 60) / 2) ^ 2 +
      Real.cos (radians 60) * Real.cos (radians 58.7) *
        Real.sin (radians (0 - 0) / 2) ^ 2 = Real.sin (13 * u) ^ 2 := by
    have e4 : radians (58.7 - 60) / 2 = -(13 * u) := by
      rw [hu]; unfold radians; ring
    have e5 : radians (0 - 0) / 2 = 0 := by unfold radians; ring
    rw [e4, e5, Real.sin_zero, Real.sin_neg]
    ring
  have hmono := arctan2_sqrt_lt haEnn haElt haS1
  simp only [haversine_distance]
  rw [haE, haS]
  linarith

lemma flat_counterexample_lt :
    flat_earth_distance 60 0 58.7 0 < flat_earth_distance 60 0 60 2 := by
  unfold flat_earth_distance
  have h1 : ((58.7:ℝ) - 60) ^ 2 + ((0:ℝ) - 0) ^ 2 = (13/10) ^ 2 := by norm_num
  have h2 : ((60:ℝ) - 60) ^ 2 + ((2:ℝ) - 0) ^ 2 = 2 ^ 2 := by norm_num
  rw [h1, h2, Real.sqrt_sq (by norm_num : (0:ℝ) ≤ 13/10),
    Real.sqrt_sq (by norm_num : (0:ℝ) ≤ 2)]
  norm_num

/-- C2 (counterexample): at the query point (60, 0) with the two cells
cellEast = (60, 2) and cellSouth = (58.7, 0), the code's nearest-cell search
(haversine) picks cellEast, while ranking by the flat-earth approximation
sqrt(dlat^2 + dlon^2) * 111 claimed by the spec picks cellSouth: the searches
do not rank by the flat-earth distance. -/
theorem find_nearest_cell_not_flat_earth_cx :
    find_nearest_cell [cellEast, cellSouth] 60 0 = some cellEast ∧
    find_nearest_cell_flat [cellEast, cellSouth] 60 0 = some cellSouth ∧
    find_nearest_cell [cellEast, cellSouth] 60 0 ≠
      find_nearest_cell_flat [cellEast, cellSouth] 60 0 := by
  have hhav : haversine_distance 60 0 cellEast.latitude cellEast.longitude <
      haversine_distance 60 0 cellSouth.latitude cellSouth.longitude := by
    show haversine_distance 60 0 60 2 < haversine_distance 60 0 58.7 0
    exact hav_counterexample_lt
  have hflat : flat_earth_distance 60 0 cellSouth.latitude cellSouth.longitude <
      flat_earth_distance 60 0 cellEast.latitude cellEast.longitude := by
    show flat_earth_distance 60 0 58.7 0 < flat_earth_distance 60 0 60 2
    exact flat_counterexample_lt
  have hE : find_nearest_cell [cellEast, cellSouth] 60 0 = some cellEast := by
    simp only [find_nearest_cell, find_nearest_by, find_nearest_go]
    rw [if_neg (lt_asymm hhav)]
    rfl
  have hS : find_nearest_cell_flat [cellEast, cellSouth] 60 0 =
      some cellSouth := by
    simp only [find_nearest_cell_flat, find_nearest_by, find_nearest_go]
    rw [if_pos hflat]
    rfl
  refine ⟨hE, hS, ?_⟩
  rw [hE, hS]
  intro heq
  have hcells : cellEast = cellSouth := Option.some.inj heq
  have hlat : cellEast.latitude = cellSouth.latitude := by rw [hcells]
  have hbad : (60 : ℝ) = 58.7 := hlat
  norm_num at hbad
